import Mathlib

/-!
# Gateway routing-with-fallback layer: a shallow embedding

This file embeds the core of the JobSearchDS service gateway
(`src/gateway/app/config.py`, `src/gateway/app/fallback.py`,
`src/gateway/app/router.py`) in Lean and proves the specification's
claims about it.

Modelling conventions:
* Python dicts with string keys are association lists (`List (String × _)`)
  or, for the router's metrics table, a total map with a zero default
  (lazy creation via `_record_request` always precedes every other
  mutation on the same key in `call_service`, so the total-map view agrees
  with the dict on all reachable paths).
* Python floats are exact rationals (`ℚ`).  The only float values the code
  produces are latency samples, confidence-interval bounds and recommender
  scores; no claim inspects their numeric rounding, and the health-ratio
  boundaries that claims do inspect (1/2 and 1/10 against ratios of small
  integers) are decided identically by binary doubles and by `ℚ`.
* Strings are Lean `String`s; `str.lower()` is modelled by `lowerStr`
  (ASCII case folding; every concrete input involved is ASCII) and `\d`
  by ASCII decimal digits.
* Wall-clock effects (latency measurement, `datetime.utcnow()`) enter as
  explicit inputs; log calls have no observable effect and are dropped.
* Exceptions are `Except`: a raised Python exception that escapes a
  function is `.error`; state mutated before the raise is kept, mirroring
  Python's in-place updates.
-/

namespace Gateway

/-- JSON-like values exchanged with the gateway: the payloads, the
handler responses and the configuration documents are Python
dict/list/str/int/float/bool structures.  Floats are exact rationals. -/
inductive Json where
  | null
  | bool (b : Bool)
  | int (n : Int)
  | rat (q : ℚ)
  | str (s : String)
  | list (xs : List Json)
  | obj (fields : List (String × Json))

/-- Python dict lookup `d.get(k)` on an association list. -/
def lookupField (fields : List (String × Json)) (k : String) : Option Json :=
  match fields with
  | [] => none
  | (k', v) :: rest => if k' = k then some v else lookupField rest k

/-- Python dict assignment `d[k] = v`: replace the binding if the key is
present, append it otherwise. -/
def setField (fields : List (String × Json)) (k : String) (v : Json) :
    List (String × Json) :=
  match fields with
  | [] => [(k, v)]
  | (k', v') :: rest =>
      if k' = k then (k', v) :: rest else (k', v') :: setField rest k v

/-- Field access on an object value, `none` on non-objects. -/
def Json.getField : Json → String → Option Json
  | .obj fields, k => lookupField fields k
  | _, _ => none

/-- String-typed field access (projection used by theorem statements). -/
def Json.getStr (j : Json) (k : String) : Option String :=
  match j.getField k with
  | some (.str s) => some s
  | _ => none

/-- Integer-typed field access (projection used by theorem statements). -/
def Json.getInt (j : Json) (k : String) : Option Int :=
  match j.getField k with
  | some (.int n) => some n
  | _ => none

/-! ## Configuration store (`src/gateway/app/config.py`) -/

/-- Configuration for a single ML service (`config.py`, `ServiceConfig`).
Field defaults: `timeout = 5.0`, `enabled = True`. -/
structure ServiceConfig where
  endpoint : String
  timeout : ℚ := 5
  enabled : Bool := true
deriving DecidableEq, Repr

/-- Gateway-level settings (`config.py`, `GatewaySettings`). -/
structure GatewaySettings where
  fallback_enabled : Bool := true
  log_requests : Bool := true
  log_responses : Bool := true
  max_retries : Nat := 1
deriving DecidableEq, Repr

/-- Mutable state of `ConfigManager`: the per-service map, the gateway
settings and the modification-time watermark `_last_mtime` (initially 0).
The purely informational `last_loaded` wall-clock timestamp is omitted:
no claim reads it. -/
structure ConfigState where
  services : List (String × ServiceConfig) := []
  gateway : GatewaySettings := {}
  last_mtime : ℚ := 0
deriving DecidableEq, Repr

/-- Environment the config manager reads: whether `config_path` exists,
its current `st_mtime`, and the outcome of reading-and-parsing it.
`parse = some (svcs, gw)` abstracts the whole body of `load`'s `try`
block succeeding (YAML parse plus pydantic construction of the service
map and the gateway settings); `parse = none` means some step of that
block raises. -/
structure FileSystem where
  pathExists : Bool
  mtime : ℚ
  parse : Option (List (String × ServiceConfig) × GatewaySettings)

/-- Hardcoded default service map (`config.py`, `_load_defaults`). -/
def defaultServices : List (String × ServiceConfig) :=
  [ ("job_recommender", { endpoint := "http://localhost:5001/recommend" }),
    ("salary_predictor", { endpoint := "http://localhost:5002/predict" }),
    ("candidate_ranker", { endpoint := "http://localhost:5003/rank" }),
    ("resume_parser", { endpoint := "http://localhost:5004/parse", timeout := 10 }),
    ("demand_forecaster", { endpoint := "http://localhost:5005/forecast" }),
    ("candidate_segmenter", { endpoint := "http://localhost:5006/segment" }) ]

/-- Load the default configuration (`ConfigManager._load_defaults`):
replaces `services` and `gateway`, leaves `_last_mtime` untouched. -/
def loadDefaults (c : ConfigState) : ConfigState :=
  { c with services := defaultServices, gateway := {} }

/-- Load configuration (`ConfigManager.load`).  Missing file or any
error inside the `try` block falls back to `_load_defaults`; only a
successful parse updates the watermark.  The Python function catches
every exception, so it is total. -/
def ConfigState.load (c : ConfigState) (fs : FileSystem) : ConfigState :=
  if fs.pathExists = false then loadDefaults c
  else
    match fs.parse with
    | some (svcs, gw) =>
        { services := svcs, gateway := gw, last_mtime := fs.mtime }
    | none => loadDefaults c

/-- Hot-reload polling (`ConfigManager.check_reload`): reload when the
file exists and its mtime is newer than the watermark. -/
def ConfigState.check_reload (c : ConfigState) (fs : FileSystem) :
    Bool × ConfigState :=
  if fs.pathExists = false then (false, c)
  else if c.last_mtime < fs.mtime then (true, c.load fs)
  else (false, c)

/-- Dict lookup `self.services.get(name)` on the service map. -/
def lookupService (svcs : List (String × ServiceConfig)) (name : String) :
    Option ServiceConfig :=
  match svcs with
  | [] => none
  | (k, sc) :: rest => if k = name then some sc else lookupService rest name

/-- Service lookup (`ConfigManager.get_service`). -/
def ConfigState.get_service (c : ConfigState) (name : String) :
    Option ServiceConfig :=
  lookupService c.services name

/-! ## Baseline fallbacks (`src/gateway/app/fallback.py`)

Each handler is a pure function of the request dict.  A raised Python
exception is `.error`: `.zeroDivisionError` for the unguarded `%` in
`candidate_segmenter`, and `.typeError` for a payload field whose shape
falls outside what the handler's use sites accept (where Python would
raise a `TypeError`/`AttributeError` at the point of use; no claim
depends on which exception class). -/

/-- Exceptions a baseline handler can raise. -/
inductive PyErr where
  | typeError
  | zeroDivisionError
deriving DecidableEq, Repr

/-- Request payloads are Python dicts. -/
abbrev Request := List (String × Json)

/-- Generic association-list lookup (Python `dict.get`). -/
def lookupAssoc {α : Type} (l : List (String × α)) (k : String) : Option α :=
  match l with
  | [] => none
  | (k', v) :: rest => if k' = k then some v else lookupAssoc rest k

/-- Extract `request.get(k, d)` as an int, failing on non-int shapes. -/
def getIntField (r : Request) (k : String) (d : Int) : Except PyErr Int :=
  match lookupField r k with
  | none => .ok d
  | some (.int n) => .ok n
  | some _ => .error .typeError

/-- Extract `request.get(k, d)` as a string, failing on non-string shapes. -/
def getStrField (r : Request) (k : String) (d : String) : Except PyErr String :=
  match lookupField r k with
  | none => .ok d
  | some (.str s) => .ok s
  | some _ => .error .typeError

/-- Extract `request.get(k, d)` as a list, failing on non-list shapes. -/
def getListField (r : Request) (k : String) (d : List Json) :
    Except PyErr (List Json) :=
  match lookupField r k with
  | none => .ok d
  | some (.list xs) => .ok xs
  | some _ => .error .typeError

/-- Baseline job recommender (`BaselineFallbacks.job_recommender`):
sequential IDs `1..n`, scores `1/(i+1)`, constant explanations.
`Int.toNat` clamps a negative requested count to 0, matching
`list(range(1, n+1))` and `[_]*n` on negative `n`. -/
def job_recommender (request : Request) : Except PyErr Json := do
  let n ← getIntField request "num_recommendations" 10
  let count := n.toNat
  let job_ids := (List.range count).map (fun i => Json.int (i + 1))
  let scores := (List.range count).map (fun i => Json.rat (1 / ((i : ℚ) + 1)))
  let explanations := List.replicate count (Json.str "Based on recency")
  return Json.obj
    [ ("job_ids", .list job_ids), ("scores", .list scores),
      ("explanations", .list explanations), ("baseline", .bool true),
      ("method", .str "most_recent") ]

/-- Python `str.lower()` (ASCII case folding, which every concrete
string in the repository exercises), written over the character list so
that it reduces by computation. -/
def lowerStr (s : String) : String :=
  String.mk (s.data.map Char.toLower)

/-- Salary lookup table of `BaselineFallbacks.salary_predictor`,
including its `default` row. -/
def title_averages : List (String × Int) :=
  [ ("software engineer", 130000), ("senior software engineer", 165000),
    ("data scientist", 140000), ("machine learning engineer", 155000),
    ("product manager", 145000), ("frontend developer", 110000),
    ("backend developer", 125000), ("devops engineer", 135000),
    ("default", 100000) ]

/-- Baseline salary predictor (`BaselineFallbacks.salary_predictor`).
Python computes `int(base * 0.7)` and `int(base * 1.3)` with binary
doubles and truncation toward zero; over the nine positive table values
this is modelled as the rational floor (no claim inspects the bounds). -/
def salary_predictor (request : Request) : Except PyErr Json := do
  let t ← getStrField request "job_title" ""
  let job_title := lowerStr t
  let base := (lookupAssoc title_averages job_title).getD 100000
  let low := Int.floor ((base : ℚ) * (7 / 10))
  let high := Int.floor ((base : ℚ) * (13 / 10))
  return Json.obj
    [ ("predicted_salary", .int base),
      ("confidence_interval", .list [.int low, .int high]),
      ("comparable_jobs", .list []), ("baseline", .bool true),
      ("method", .str "industry_average") ]

/-- ID extraction loop of `candidate_ranker` when the first profile is a
dict: `[c.get("id", i) for i, c in enumerate(candidates)]`.  A non-dict
element raises at its `.get` call. -/
def rankerIds : List Json → Nat → Except PyErr (List Json)
  | [], _ => .ok []
  | .obj fields :: rest, i => do
      let tl ← rankerIds rest (i + 1)
      return (lookupField fields "id").getD (Json.int i) :: tl
  | _ :: _, _ => .error .typeError

/-- Baseline candidate ranker (`BaselineFallbacks.candidate_ranker`):
FIFO order, uniform score 50. -/
def candidate_ranker (request : Request) : Except PyErr Json := do
  let candidates ← getListField request "candidate_profiles" []
  let candidate_ids ←
    match candidates with
    | .obj _ :: _ => rankerIds candidates 0
    | _ => pure ((List.range candidates.length).map (fun i => Json.int i))
  return Json.obj
    [ ("ranked_candidate_ids", .list candidate_ids),
      ("match_scores", .list (List.replicate candidate_ids.length (Json.int 50))),
      ("match_reasons",
        .list (List.replicate candidate_ids.length
          (Json.str "Application order (FIFO)"))),
      ("baseline", .bool true), ("method", .str "fifo") ]

/-- Skill keyword list of `BaselineFallbacks.resume_parser` of fallback.py (named `resume_parser_fn` here). -/
def skill_keywords : List String :=
  [ "python", "javascript", "java", "sql", "react", "node.js",
    "aws", "docker", "kubernetes", "machine learning", "data science",
    "tensorflow", "pytorch", "pandas", "git", "agile" ]

/-- Boolean list-prefix test (first argument is the candidate prefix). -/
def startsWithList : List Char → List Char → Bool
  | [], _ => true
  | _ :: _, [] => false
  | a :: as, b :: bs => a == b && startsWithList as bs

/-- Python substring containment `needle in hay` over character lists. -/
def containsList (hay needle : List Char) : Bool :=
  match hay with
  | [] => needle.isEmpty
  | _ :: t => startsWithList needle hay || containsList t needle

/-- Python `needle in hay` on strings. -/
def strContains (hay needle : String) : Bool :=
  containsList hay.data needle.data

/-- Whitespace class of the regex `\s` (ASCII part). -/
def isPySpace (c : Char) : Bool :=
  c = ' ' || c = '\t' || c = '\n' || c = '\x0d' || c = '\x0b' || c = '\x0c'

/-- Numeric value of an ASCII digit run (Python `int` on the capture). -/
def digitsToNat (ds : List Char) : Nat :=
  ds.foldl (fun acc c => 10 * acc + (c.toNat - 48)) 0

/-- Attempt of the regex `(\d+)\+?\s*years?` at the head of the input:
a maximal digit run, an optional `+`, greedy whitespace, `year`, an
optional `s`.  Returns the captured run's value and the rest of the
input after the match.  Greediness is exact here: when the maximal
digit run (resp. whitespace run) fails the remainder, every shorter one
meets a digit (resp. a space) where `+`/space/`y` is required, so
backtracking can never succeed, exactly as in the Python pattern. -/
def matchYearsAt (cs : List Char) : Option (Nat × List Char) :=
  let ds := cs.takeWhile Char.isDigit
  if ds.isEmpty then none
  else
    let r1 := cs.drop ds.length
    let r2 := match r1 with
      | '+' :: t => t
      | _ => r1
    let r3 := r2.dropWhile isPySpace
    match r3 with
    | 'y' :: 'e' :: 'a' :: 'r' :: rest =>
        let rest2 := match rest with
          | 's' :: t => t
          | _ => rest
        some (digitsToNat ds, rest2)
    | _ => none

/-- Scanning loop of `re.findall`: try a match at each position left to
right; a match consumes its span, a failure advances one character.
Fuelled by the input length, which every step strictly decreases, so the
fuel never runs out on the initial call. -/
def findYearsAux : Nat → List Char → List Nat
  | 0, _ => []
  | _, [] => []
  | fuel + 1, c :: cs =>
      match matchYearsAt (c :: cs) with
      | some (n, rest) => n :: findYearsAux fuel rest
      | none => findYearsAux fuel cs

/-- Captures of `re.findall(r'(\d+)\+?\s*years?', text)`, as numbers. -/
def findYearMatches (cs : List Char) : List Nat :=
  findYearsAux cs.length cs

/-- Baseline resume parser (`BaselineFallbacks.resume_parser` of fallback.py (named `resume_parser_fn` here)).  Note
that the source lowercases the text once and derives skills, years and
the summary all from the lowercased copy; `max(...)` over a nonempty
capture list with default 0 is `foldl max 0` over `ℕ`, and
`resume_text[:200] if resume_text else ""` is `take 200` (both give `""`
on the empty string). -/
def resume_parser_fn (request : Request) : Except PyErr Json := do
  let t ← getStrField request "resume_text" ""
  let resume_text := lowerStr t
  let found_skills := skill_keywords.filter (fun sk => strContains resume_text sk)
  let year_patterns := findYearMatches resume_text.data
  let experience_years := year_patterns.foldl Nat.max 0
  let summary := String.mk (resume_text.data.take 200)
  return Json.obj
    [ ("skills", .list (found_skills.map Json.str)),
      ("experience_years", .int experience_years),
      ("education", .obj []), ("work_history", .list []),
      ("summary", .str summary), ("baseline", .bool true),
      ("method", .str "keyword_matching") ]

/-- Baseline demand forecaster (`BaselineFallbacks.demand_forecaster`):
flat projection of 100 over the horizon, bounds `100*0.8 = 80.0` and
`100*1.2 = 120.0` (both exact in doubles). -/
def demand_forecaster (request : Request) : Except PyErr Json := do
  let horizon ← getIntField request "forecast_horizon" 3
  let count := horizon.toNat
  let periods :=
    (List.range count).map (fun i => Json.str ("month_" ++ toString (i + 1)))
  return Json.obj
    [ ("forecast_periods", .list periods),
      ("predicted_demand", .list (List.replicate count (Json.int 100))),
      ("confidence_bounds",
        .list (List.replicate count (Json.list [.rat 80, .rat 120]))),
      ("baseline", .bool true), ("method", .str "flat_projection") ]

/-- Description strings of `candidate_segmenter` before slicing. -/
def segmenter_descriptions : List String :=
  [ "General candidates - Group A", "General candidates - Group B",
    "General candidates - Group C" ]

/-- Python slice `l[:n]` for possibly negative `n` (a negative stop
counts from the end, clamped at zero). -/
def pySliceTo {α : Type} (l : List α) (n : Int) : List α :=
  if 0 ≤ n then l.take n.toNat else l.take ((l.length : Int) + n).toNat

/-- Baseline candidate segmenter (`BaselineFallbacks.candidate_segmenter`):
round-robin `i % num_clusters` with no zero guard — the comprehension
evaluates `%` once per candidate, so `num_clusters = 0` raises
`ZeroDivisionError` exactly when the profile list is nonempty.
`Int.fmod` is Python's floored `%` for nonzero divisors. -/
def candidate_segmenter (request : Request) : Except PyErr Json := do
  let candidates ← getListField request "candidate_profiles" []
  let num_clusters ← getIntField request "num_clusters" 3
  if candidates.length ≠ 0 ∧ num_clusters = 0 then
    .error .zeroDivisionError
  else
    let assignments :=
      (List.range candidates.length).map
        (fun i => Json.int (Int.fmod i num_clusters))
    return Json.obj
      [ ("cluster_assignments", .list assignments),
        ("cluster_descriptions",
          .list ((pySliceTo segmenter_descriptions num_clusters).map Json.str)),
        ("cluster_centroids", .list []),
        ("baseline", .bool true), ("method", .str "category_grouping") ]

/-- Handler table `FALLBACK_HANDLERS`. -/
def FALLBACK_HANDLERS : List (String × (Request → Except PyErr Json)) :=
  [ ("job_recommender", job_recommender),
    ("salary_predictor", salary_predictor),
    ("candidate_ranker", candidate_ranker),
    ("resume_parser", resume_parser_fn),
    ("demand_forecaster", demand_forecaster),
    ("candidate_segmenter", candidate_segmenter) ]

/-- Handler lookup (`get_fallback`). -/
def get_fallback (name : String) : Option (Request → Except PyErr Json) :=
  lookupAssoc FALLBACK_HANDLERS name

/-! ## Metrics recorder (`src/gateway/app/router.py`, `_record_*`)

The Python `self.metrics` dict is modelled as a total map with the zero
record as default.  Lazy creation in `_record_request` becomes a plain
increment, and since `call_service` always calls `_record_request`
before any other mutation of the same key, the dict and the total map
agree on every reachable path (and `get_health`/`get_metrics` read
absent keys with the same zero defaults). -/

/-- Per-service metrics record, zero-initialised on first request. -/
structure ServiceMetrics where
  total_requests : Nat := 0
  external_success : Nat := 0
  fallback_success : Nat := 0
  failures : Nat := 0
  latencies : List ℚ := []
  last_error : Option String := none
deriving DecidableEq, Repr

/-- Metrics table: per-service records with a zero default.  The
`last_error` wall-clock timestamp is dropped (no claim reads it). -/
abbrev Metrics := String → ServiceMetrics

/-- Point update of one service's record. -/
def updateAt (name : String) (f : ServiceMetrics → ServiceMetrics)
    (m : Metrics) : Metrics :=
  fun k => if k = name then f (m k) else m k

/-- Request counting (`_record_request`). -/
def record_request (name : String) (m : Metrics) : Metrics :=
  updateAt name (fun r => { r with total_requests := r.total_requests + 1 }) m

/-- Success counting (`_record_success`). -/
def record_success (external : Bool) (name : String) (m : Metrics) : Metrics :=
  updateAt name
    (fun r =>
      if external then { r with external_success := r.external_success + 1 }
      else { r with fallback_success := r.fallback_success + 1 }) m

/-- Failure counting (`_record_failure`): bumps the counter and
overwrites `last_error` with the message. -/
def record_failure (err : String) (name : String) (m : Metrics) : Metrics :=
  updateAt name
    (fun r => { r with failures := r.failures + 1, last_error := some err }) m

/-- Bounded latency window: append, then keep the last 100. -/
def keepLast100 (l : List ℚ) : List ℚ :=
  if l.length > 100 then l.drop (l.length - 100) else l

/-- Latency recording (`_record_latency`). -/
def record_latency (lat : ℚ) (name : String) (m : Metrics) : Metrics :=
  updateAt name (fun r => { r with latencies := keepLast100 (r.latencies ++ [lat]) }) m

/-! ## Dispatcher (`src/gateway/app/router.py`, `ServiceRouter`) -/

/-- Router state: the shared config manager and the metrics table. -/
structure RouterState where
  config : ConfigState
  metrics : Metrics

/-- Behaviour of the external endpoint for one call, were it attempted:
either a 2xx response with a JSON object body, or any transport error,
timeout, non-2xx status or non-object body (each of which raises inside
the `try` of `call_service` and lands in its `except` arm). -/
inductive ExtOutcome where
  | ok (fields : List (String × Json))
  | error (msg : String)

/-- Inputs of one `call_service` invocation: the filesystem state seen
by the reload check, the external endpoint's behaviour, the measured
latency, the service name and the payload. -/
structure CallInput where
  fs : FileSystem
  ext : ExtOutcome
  lat : ℚ
  name : String
  payload : Request

/-- Exceptions that can escape `call_service`: the re-raised external
error when fallback is disabled, the `ValueError` for a missing
fallback handler, and an exception raised inside a handler. -/
inductive CallError where
  | externalError (msg : String)
  | valueError (msg : String)
  | handlerError (e : PyErr)
deriving DecidableEq, Repr

/-- Provenance metadata attached to an external response. -/
def metaExternal (endpoint : String) (lat : ℚ) : Json :=
  .obj [ ("source", .str "external"), ("endpoint", .str endpoint),
         ("latency_ms", .rat lat) ]

/-- Provenance metadata attached to a fallback response. -/
def metaFallback (lat : ℚ) : Json :=
  .obj [ ("source", .str "fallback"), ("latency_ms", .rat lat) ]

/-- Metadata injection `result["_meta"] = {...}`.  Every baseline
handler returns an object, so the non-object arm is unreachable there. -/
def setMeta (j : Json) (meta : Json) : Json :=
  match j with
  | .obj fields => .obj (setField fields "_meta" meta)
  | other => other

/-- Baseline dispatch (`ServiceRouter._call_fallback`): missing handler
raises `ValueError`; a handler exception propagates before latency or
success is recorded; otherwise latency then fallback success are
recorded and the result is tagged `source=fallback`. -/
def call_fallback (inp : CallInput) (s : RouterState) :
    Except CallError Json × RouterState :=
  match get_fallback inp.name with
  | none =>
      (.error (.valueError ("No fallback handler for service: " ++ inp.name)), s)
  | some handler =>
      match handler inp.payload with
      | .error e => (.error (.handlerError e), s)
      | .ok result =>
          let m := record_success false inp.name
            (record_latency inp.lat inp.name s.metrics)
          (.ok (setMeta result (metaFallback inp.lat)), { s with metrics := m })

/-- The dispatcher (`ServiceRouter.call_service`): poll for reload,
look up the service, record the request, then attempt the external
endpoint when a config entry exists and is enabled — on failure record
it and fall back if `fallback_enabled`, else re-raise — and otherwise
go straight to the baseline. -/
def call_service (inp : CallInput) (s : RouterState) :
    Except CallError Json × RouterState :=
  let cfg := (s.config.check_reload inp.fs).2
  let sc := cfg.get_service inp.name
  let m0 := record_request inp.name s.metrics
  match sc with
  | some c =>
      if c.enabled then
        match inp.ext with
        | .ok fields =>
            let m1 := record_latency inp.lat inp.name m0
            let body := setMeta (.obj fields) (metaExternal c.endpoint inp.lat)
            (.ok body, ⟨cfg, record_success true inp.name m1⟩)
        | .error msg =>
            let m1 := record_failure msg inp.name m0
            if cfg.gateway.fallback_enabled then call_fallback inp ⟨cfg, m1⟩
            else (.error (.externalError msg), ⟨cfg, m1⟩)
      else call_fallback inp ⟨cfg, m0⟩
  | none => call_fallback inp ⟨cfg, m0⟩

/-- Health entry of one service (`ServiceRouter.get_health`).  The
ratio tests use exact rationals; the boundary constants 0.5 and 0.1
compared against ratios of machine-sized counters are decided the same
way by binary doubles (0.5 is exact; a true ratio equal to 1/10 divides
to exactly the double nearest 0.1, the same value as the literal). -/
structure HealthEntry where
  status : String
  endpoint : String
  enabled : Bool
  total_requests : Nat
  failure_rate : ℚ
  last_error : Option String
deriving DecidableEq, Repr

/-- Status derivation of `get_health` for one service. -/
def healthEntry (sc : ServiceConfig) (r : ServiceMetrics) : HealthEntry :=
  let total := r.total_requests
  let failures := r.failures
  let status :=
    if total = 0 then "unknown"
    else if (failures : ℚ) / total > 1 / 2 then "degraded"
    else if (failures : ℚ) / total > 1 / 10 then "warning"
    else "healthy"
  { status := status, endpoint := sc.endpoint, enabled := sc.enabled,
    total_requests := total,
    failure_rate := if 0 < total then (failures : ℚ) / total else 0,
    last_error := r.last_error }

/-- Health table (`ServiceRouter.get_health`): one entry per service of
the current configuration, reading absent metrics as zeros. -/
def get_health (s : RouterState) : List (String × HealthEntry) :=
  s.config.services.map (fun p => (p.1, healthEntry p.2 (s.metrics p.1)))

/-- Router state at process start: a config manager state and an empty
metrics dict. -/
def initialState (c : ConfigState) : RouterState :=
  ⟨c, fun _ => {}⟩

/-- Folding a sequence of calls through the router, keeping the state. -/
def run_calls (inps : List CallInput) (s : RouterState) : RouterState :=
  match inps with
  | [] => s
  | inp :: rest => run_calls rest (call_service inp s).2

/-! ## Observers used by theorem statements -/

/-- String field of a handler result, `none` if the call raised. -/
def okGetStr (r : Except PyErr Json) (k : String) : Option String :=
  match r with
  | .ok b => b.getStr k
  | .error _ => none

/-- Integer field of a handler result, `none` if the call raised. -/
def okGetInt (r : Except PyErr Json) (k : String) : Option Int :=
  match r with
  | .ok b => b.getInt k
  | .error _ => none

/-- Provenance tag of a dispatch result: the `_meta.source` string of a
returned envelope, `none` when the call raised. -/
def envelopeSource (r : Except CallError Json) : Option String :=
  match r with
  | .ok b =>
      match b.getField "_meta" with
      | some meta => meta.getStr "source"
      | none => none
  | .error _ => none

/-- Routing decision of the dispatcher (the branch condition
`service_config and service_config.enabled` of `call_service`): the
external endpoint is attempted exactly when this is true.  Defined to
state C3; note the endpoint string plays no part. -/
def externalAttempted (c : ConfigState) (name : String) : Bool :=
  (c.get_service name).elim false (fun sc => sc.enabled)

/-- Health status reported for one name, as read from the table. -/
def healthStatusOf (s : RouterState) (name : String) : Option String :=
  (lookupAssoc (get_health s) name).map HealthEntry.status

/-! ## Shared helper lemmas -/

/-- Metrics effect of the baseline path: either nothing (missing
handler, or the handler raised) or one latency sample plus one fallback
success. -/
theorem call_fallback_metrics_cases (inp : CallInput) (s : RouterState) :
    (call_fallback inp s).2.metrics = s.metrics ∨
    (call_fallback inp s).2.metrics =
      record_success false inp.name (record_latency inp.lat inp.name s.metrics) := by
  unfold call_fallback
  cases hf : get_fallback inp.name with
  | none => exact Or.inl rfl
  | some handler =>
      dsimp only
      cases hr : handler inp.payload with
      | error e => exact Or.inl rfl
      | ok result => exact Or.inr rfl

/-- The baseline path never touches the failure counter. -/
theorem failures_call_fallback (inp : CallInput) (s : RouterState) (k : String) :
    ((call_fallback inp s).2.metrics k).failures = (s.metrics k).failures := by
  rcases call_fallback_metrics_cases inp s with h | h <;> rw [h]
  simp only [record_success, record_latency, updateAt]
  by_cases hk : k = inp.name <;> simp [hk]

/-- Branch equation of the dispatcher: no configuration entry means
straight to baseline after recording the request. -/
theorem call_service_no_entry (fs : FileSystem) (ext : ExtOutcome) (lat : ℚ)
    (name : String) (payload : Request) (s : RouterState)
    (h : ((s.config.check_reload fs).2).get_service name = none) :
    call_service ⟨fs, ext, lat, name, payload⟩ s =
      call_fallback ⟨fs, ext, lat, name, payload⟩
        ⟨(s.config.check_reload fs).2, record_request name s.metrics⟩ := by
  unfold call_service
  dsimp only
  rw [h]

/-- Branch equation of the dispatcher: a disabled entry means straight
to baseline after recording the request. -/
theorem call_service_disabled (fs : FileSystem) (ext : ExtOutcome) (lat : ℚ)
    (name : String) (payload : Request) (s : RouterState) (c : ServiceConfig)
    (h : ((s.config.check_reload fs).2).get_service name = some c)
    (he : c.enabled = false) :
    call_service ⟨fs, ext, lat, name, payload⟩ s =
      call_fallback ⟨fs, ext, lat, name, payload⟩
        ⟨(s.config.check_reload fs).2, record_request name s.metrics⟩ := by
  obtain ⟨ep, tm, en⟩ := c
  have he2 : en = false := he
  subst he2
  unfold call_service
  dsimp only
  rw [h]
  rfl

/-- Branch equation of the dispatcher: enabled entry and a successful
external call — latency then external success recorded, envelope tagged
`source=external`. -/
theorem call_service_ext_ok (fs : FileSystem) (fields : List (String × Json))
    (lat : ℚ) (name : String) (payload : Request) (s : RouterState)
    (c : ServiceConfig)
    (h : ((s.config.check_reload fs).2).get_service name = some c)
    (he : c.enabled = true) :
    call_service ⟨fs, .ok fields, lat, name, payload⟩ s =
      (.ok (setMeta (.obj fields) (metaExternal c.endpoint lat)),
        ⟨(s.config.check_reload fs).2,
          record_success true name
            (record_latency lat name (record_request name s.metrics))⟩) := by
  obtain ⟨ep, tm, en⟩ := c
  have he2 : en = true := he
  subst he2
  unfold call_service
  dsimp only
  rw [h]
  rfl

/-- Branch equation of the dispatcher: enabled entry and a failing
external call — the failure is recorded, then the baseline runs when
`fallback_enabled` and the error is re-raised otherwise. -/
theorem call_service_ext_error (fs : FileSystem) (msg : String) (lat : ℚ)
    (name : String) (payload : Request) (s : RouterState) (c : ServiceConfig)
    (h : ((s.config.check_reload fs).2).get_service name = some c)
    (he : c.enabled = true) :
    call_service ⟨fs, .error msg, lat, name, payload⟩ s =
      (if ((s.config.check_reload fs).2).gateway.fallback_enabled then
        call_fallback ⟨fs, .error msg, lat, name, payload⟩
          ⟨(s.config.check_reload fs).2,
            record_failure msg name (record_request name s.metrics)⟩
      else
        (.error (.externalError msg),
          ⟨(s.config.check_reload fs).2,
            record_failure msg name (record_request name s.metrics)⟩)) := by
  obtain ⟨ep, tm, en⟩ := c
  have he2 : en = true := he
  subst he2
  unfold call_service
  dsimp only
  rw [h]
  rfl

/-- Reload polling is a no-op while the configuration file is absent. -/
theorem check_reload_noop (c : ConfigState) (fs : FileSystem)
    (h : fs.pathExists = false) : c.check_reload fs = (false, c) := by
  unfold ConfigState.check_reload
  simp [h]

/-- Branch equation of the baseline path: registered handler returning
normally — latency and fallback success recorded, envelope tagged
`source=fallback`. -/
theorem call_fallback_ok (fs : FileSystem) (ext : ExtOutcome) (lat : ℚ)
    (name : String) (payload : Request) (s : RouterState)
    (handler : Request → Except PyErr Json) (body : Json)
    (hh : get_fallback name = some handler)
    (hb : handler payload = .ok body) :
    call_fallback ⟨fs, ext, lat, name, payload⟩ s =
      (.ok (setMeta body (metaFallback lat)),
        { s with metrics :=
            record_success false name (record_latency lat name s.metrics) }) := by
  have step1 : call_fallback ⟨fs, ext, lat, name, payload⟩ s =
      match handler payload with
      | .error e => (.error (.handlerError e), s)
      | .ok result =>
          (.ok (setMeta result (metaFallback lat)),
            { s with metrics :=
                record_success false name (record_latency lat name s.metrics) }) := by
    unfold call_fallback
    dsimp only
    rw [hh]
  rw [step1, hb]

/-! ## C1: health classification at failure ratio exactly 1/2 -/

/-- C1 (counterexample): a configured service with 2 requests and 1
failure — failure ratio exactly 1/2 — is reported `warning` by
`get_health`, not `degraded` as the claim states, because the
`degraded` test `failures / total > 0.5` is strict. -/
theorem c1_health_ratio_half_reported_warning :
    healthStatusOf
      ⟨{ services := [("svc", { endpoint := "http://e" })] },
        fun _ => { total_requests := 2, failures := 1 }⟩ "svc"
      = some "warning" ∧ some "warning" ≠ some "degraded" := by
  constructor
  · show some (healthEntry _ _).status = _
    norm_num [healthEntry]
  · decide

/-- C1 (amended): for every service name present in the current
configuration whose metrics satisfy `total_requests > 0` and
`failures / total_requests = 1/2` exactly, `get_health` carries an
entry for it with status `warning` (ratio 1/2 fails the strict
`> 0.5` degraded test and passes the `> 0.1` warning test). -/
theorem c1_health_ratio_half_is_warning (s : RouterState) (name : String)
    (sc : ServiceConfig) (h1 : (name, sc) ∈ s.config.services)
    (h2 : (s.metrics name).total_requests ≠ 0)
    (h3 : ((s.metrics name).failures : ℚ) / (s.metrics name).total_requests = 1 / 2) :
    (name, healthEntry sc (s.metrics name)) ∈ get_health s ∧
      (healthEntry sc (s.metrics name)).status = "warning" := by
  refine ⟨List.mem_map.mpr ⟨(name, sc), h1, rfl⟩, ?_⟩
  norm_num [healthEntry, h2, h3]

/-- C1 (witness): the amended theorem applied at the concrete state of
the counterexample. -/
theorem c1_health_ratio_half_is_warning_witness :
    (("svc", ({ endpoint := "http://e" } : ServiceConfig)) ∈
      (⟨{ services := [("svc", { endpoint := "http://e" })] },
        fun _ => { total_requests := 2, failures := 1 }⟩ : RouterState).config.services) ∧
    (healthEntry { endpoint := "http://e" }
      { total_requests := 2, failures := 1 }).status = "warning" := by
  refine ⟨by simp, ?_⟩
  exact (c1_health_ratio_half_is_warning
    ⟨{ services := [("svc", { endpoint := "http://e" })] },
      fun _ => { total_requests := 2, failures := 1 }⟩
    "svc" { endpoint := "http://e" } (by simp) (by norm_num) (by norm_num)).2

/-! ## C2: behaviour of a failed configuration reload -/

/-- C2 (counterexample): a reload whose parse fails (file exists, mtime
advanced, parse raises) does not keep the prior configuration: the
service map is replaced by the hardcoded defaults and the gateway
settings revert to their defaults, both differing from the prior
values. -/
theorem c2_failed_reload_replaces_prior_config :
    ((ConfigState.check_reload
        { services := [("custom", { endpoint := "http://custom" })],
          gateway := { fallback_enabled := false } }
        ⟨true, 5, none⟩).2.services = defaultServices ∧
      defaultServices ≠ [("custom", { endpoint := "http://custom" })]) ∧
    ((ConfigState.check_reload
        { services := [("custom", { endpoint := "http://custom" })],
          gateway := { fallback_enabled := false } }
        ⟨true, 5, none⟩).2.gateway = {} ∧
      ({} : GatewaySettings) ≠ { fallback_enabled := false }) := by
  refine ⟨⟨?_, by decide⟩, ⟨?_, by decide⟩⟩ <;> decide

/-- C2 (amended): a failed reload never aborts the surrounding call
(`load` catches every error, so `check_reload` is total and returns),
but the previously loaded configuration does not stay active: when the
source exists, its mtime advanced and parsing fails, the service map
and the gateway settings are replaced by the hardcoded defaults, the
watermark staying put. -/
theorem c2_reload_failure_loads_defaults (c : ConfigState) (fs : FileSystem)
    (h1 : fs.pathExists = true) (h2 : fs.parse = none)
    (h3 : c.last_mtime < fs.mtime) :
    c.check_reload fs =
      (true, { c with services := defaultServices, gateway := {} }) := by
  unfold ConfigState.check_reload ConfigState.load loadDefaults
  simp [h1, h2, h3]

/-- C2 (witness): the amended theorem at a concrete failing reload. -/
theorem c2_reload_failure_loads_defaults_witness :
    (⟨true, 5, none⟩ : FileSystem).parse = none ∧
    ConfigState.check_reload { last_mtime := 0 } ⟨true, 5, none⟩ =
      (true, { ({ last_mtime := 0 } : ConfigState) with
        services := defaultServices, gateway := {} }) :=
  ⟨rfl, c2_reload_failure_loads_defaults { last_mtime := 0 } ⟨true, 5, none⟩
    rfl rfl (by norm_num)⟩

/-! ## C4: idempotence of the double reload check -/

/-- C4 (counterexample): when the first `check_reload` triggers a load
that fails to parse, the watermark is not advanced, so a second
`check_reload` with the file unchanged is not a no-op: it returns
`true` and performs a second load. -/
theorem c4_second_check_reload_after_failed_load_still_loads :
    (ConfigState.check_reload
      ((ConfigState.check_reload { last_mtime := 0 } ⟨true, 5, none⟩).2)
      ⟨true, 5, none⟩).1 = true := by
  decide

/-- C4 (amended): if the configuration source parses successfully, two
successive `check_reload` calls with the source unchanged perform at
most one load: whatever the first call did, the second returns `false`
and leaves the state exactly as the first left it.  (When the first
call's load fails to parse, the watermark is not advanced and the
second call loads again — see the counterexample.) -/
theorem c4_check_reload_idempotent_on_success (c : ConfigState)
    (fs : FileSystem) (v : List (String × ServiceConfig) × GatewaySettings)
    (h : fs.parse = some v) :
    ((c.check_reload fs).2).check_reload fs = (false, (c.check_reload fs).2) := by
  unfold ConfigState.check_reload ConfigState.load
  by_cases hex : fs.pathExists = false
  · simp [hex]
  · by_cases hm : c.last_mtime < fs.mtime
    · simp [hex, hm, h]
    · simp [hex, hm]

/-- C4 (witness): the amended theorem at a concrete successful reload,
together with the fact that the first call did trigger the load. -/
theorem c4_check_reload_idempotent_on_success_witness :
    (ConfigState.check_reload { last_mtime := 0 } ⟨true, 5, some ([], {})⟩).1
      = true ∧
    (ConfigState.check_reload
        ((ConfigState.check_reload { last_mtime := 0 }
          ⟨true, 5, some ([], {})⟩).2) ⟨true, 5, some ([], {})⟩)
      = (false,
          (ConfigState.check_reload { last_mtime := 0 }
            ⟨true, 5, some ([], {})⟩).2) :=
  ⟨by decide,
    c4_check_reload_idempotent_on_success { last_mtime := 0 }
      ⟨true, 5, some ([], {})⟩ ([], {}) rfl⟩

/-! ## C6: routing an unknown service name -/

/-- C6 (counterexample): for a name in neither the configuration nor
the handler table the dispatch does not return a response at all: it
raises (the call's result is an error, a `ValueError` naming the
missing handler), and no not-found or client-error classification
exists anywhere in the dispatch path, so the claim's defined not-found
return does not happen. -/
theorem c6_unknown_service_result_is_value_error :
    (call_service ⟨⟨false, 0, none⟩, .error "boom", 0, "nonexistent", []⟩
        (initialState { services := defaultServices })).1
      = .error (.valueError "No fallback handler for service: nonexistent") := by
  rfl

/-- C6 (amended): for every service name that is present neither in the
configuration nor in the baseline registry, `call_service` raises a
`ValueError` whose message names the missing handler — a defined,
deterministic exception rather than an arbitrary crash — which
propagates to the caller unhandled (the HTTP layer never converts it to
a not-found client error). -/
theorem c6_unknown_service_raises_value_error (s : RouterState)
    (name msg : String) (lat : ℚ) (payload : Request) (fs : FileSystem)
    (h1 : fs.pathExists = false)
    (h2 : s.config.get_service name = none)
    (h3 : get_fallback name = none) :
    (call_service ⟨fs, .error msg, lat, name, payload⟩ s).1
      = .error (.valueError ("No fallback handler for service: " ++ name)) := by
  unfold call_service call_fallback
  simp [ConfigState.check_reload, h1, h2, h3]

/-- C6 (witness): the amended theorem at a concrete unknown name. -/
theorem c6_unknown_service_raises_value_error_witness :
    get_fallback "nonexistent" = none ∧
    (call_service ⟨⟨false, 0, none⟩, .error "x", 0, "nonexistent", []⟩
        (initialState {})).1
      = .error (.valueError ("No fallback handler for service: " ++ "nonexistent")) :=
  ⟨rfl,
    c6_unknown_service_raises_value_error (initialState {}) "nonexistent" "x" 0 []
      ⟨false, 0, none⟩ rfl rfl rfl⟩

/-! ## C3: the external-attempt decision -/

/-- C3 (counterexample): a configured service whose entry is enabled
but has an empty endpoint string does not go straight to the baseline:
the dispatcher attempts the external endpoint, and when that attempt
fails it records an external failure (failure counter 1, last error
set) before falling back — under the claim no external attempt may
happen and the failure counter would stay 0. -/
theorem c3_empty_endpoint_attempts_external :
    (((call_service ⟨⟨false, 0, none⟩, .error "boom", 0, "resume_parser", []⟩
        (initialState { services := [("resume_parser", { endpoint := "" })] })).2.metrics
      "resume_parser").failures = 1 ∧
     ((call_service ⟨⟨false, 0, none⟩, .error "boom", 0, "resume_parser", []⟩
        (initialState { services := [("resume_parser", { endpoint := "" })] })).2.metrics
      "resume_parser").last_error = some "boom") := by
  constructor <;> rfl

/-- C3 (amended): the external endpoint is attempted if and only if the
configuration contains an entry for the name with `enabled = true`; the
endpoint string is never consulted by the decision (an enabled entry
with an empty endpoint is still attempted).  The attempt is observed
through the failure counter under a failing external endpoint: it rises
by exactly 1 when the decision attempts the external call and stays put
when the call goes straight to the baseline. -/
theorem c3_external_attempt_iff_enabled_entry (s : RouterState)
    (name msg : String) (lat : ℚ) (payload : Request) (fs : FileSystem)
    (h : fs.pathExists = false) :
    ((call_service ⟨fs, .error msg, lat, name, payload⟩ s).2.metrics name).failures
      = (s.metrics name).failures +
        (if externalAttempted s.config name then 1 else 0) := by
  have hc : ((s.config.check_reload fs).2).get_service name
      = s.config.get_service name := by
    unfold ConfigState.check_reload
    simp [h]
  cases hsc : s.config.get_service name with
  | none =>
      rw [call_service_no_entry fs (.error msg) lat name payload s (hc.trans hsc)]
      rw [failures_call_fallback]
      simp [externalAttempted, hsc, record_request, updateAt]
  | some sc =>
      cases he : sc.enabled with
      | false =>
          rw [call_service_disabled fs (.error msg) lat name payload s sc
            (hc.trans hsc) he]
          rw [failures_call_fallback]
          simp [externalAttempted, hsc, he, record_request, updateAt]
      | true =>
          rw [call_service_ext_error fs msg lat name payload s sc
            (hc.trans hsc) he]
          by_cases hf : ((s.config.check_reload fs).2).gateway.fallback_enabled = true
          · rw [if_pos hf, failures_call_fallback]
            simp [externalAttempted, hsc, he, record_failure, record_request, updateAt]
          · rw [if_neg hf]
            simp [externalAttempted, hsc, he, record_failure, record_request, updateAt]

/-- C3 (witness): the amended theorem at the counterexample's input,
where the entry is enabled with an empty endpoint. -/
theorem c3_external_attempt_iff_enabled_entry_witness :
    (⟨false, 0, none⟩ : FileSystem).pathExists = false ∧
    (((call_service ⟨⟨false, 0, none⟩, .error "down", 0, "resume_parser", []⟩
        (initialState { services := [("resume_parser", { endpoint := "" })] })).2.metrics
      "resume_parser").failures
      = ((initialState { services := [("resume_parser", { endpoint := "" })] }).metrics
          "resume_parser").failures +
        (if externalAttempted { services := [("resume_parser", { endpoint := "" })] }
            "resume_parser" then 1 else 0)) :=
  ⟨rfl, c3_external_attempt_iff_enabled_entry
    (initialState { services := [("resume_parser", { endpoint := "" })] })
    "resume_parser" "down" 0 [] ⟨false, 0, none⟩ rfl⟩

/-! ## C7: the resume-parser baseline -/

/-- C7 (counterexample): on the one-character resume text `A` the
baseline returns summary `a` — the first 200 characters of the
lowercased text — and not the raw text `A` the claim requires. -/
theorem c7_summary_is_lowercased_not_raw :
    okGetStr (resume_parser_fn [("resume_text", .str "A")]) "summary" = some "a" ∧
    okGetStr (resume_parser_fn [("resume_text", .str "A")]) "summary" ≠ some "A" := by
  constructor
  · rfl
  · intro hcontra
    rw [show okGetStr (resume_parser_fn [("resume_text", .str "A")]) "summary"
        = some "a" from rfl] at hcontra
    simp at hcontra

/-- C7 (amended): for every payload whose `resume_text` is a string (or
absent, defaulting to the empty string), the baseline returns
`experience_years` equal to the maximum integer captured by the
`(\d+)\+?\s*years?` pattern over the lowercased text (0 when there is
no match) and `summary` equal to the first 200 characters of the
lowercased — not raw — text, with no ellipsis marker appended. -/
theorem c7_resume_parser_fields (payload : Request) (t : String)
    (h : lookupField payload "resume_text" = some (.str t) ∨
      (lookupField payload "resume_text" = none ∧ t = "")) :
    okGetInt (resume_parser_fn payload) "experience_years"
      = some (Int.ofNat ((findYearMatches (lowerStr t).data).foldl Nat.max 0)) ∧
    okGetStr (resume_parser_fn payload) "summary"
      = some (String.mk ((lowerStr t).data.take 200)) := by
  have ht : getStrField payload "resume_text" "" = .ok t := by
    rcases h with h | ⟨h, rfl⟩ <;> simp [getStrField, h]
  unfold resume_parser_fn
  rw [ht]
  simp [okGetInt, okGetStr, Json.getInt, Json.getStr, Json.getField, lookupField]

/-- C7 (witness): the amended theorem at a concrete resume text with
two year mentions, the larger of which wins. -/
theorem c7_resume_parser_fields_witness :
    lookupField [("resume_text", Json.str "3 years Python, 12+ years SQL")]
      "resume_text" = some (.str "3 years Python, 12+ years SQL") ∧
    okGetInt (resume_parser_fn [("resume_text", Json.str "3 years Python, 12+ years SQL")])
      "experience_years" = some 12 ∧
    okGetStr (resume_parser_fn [("resume_text", Json.str "3 years Python, 12+ years SQL")])
      "summary" = some "3 years python, 12+ years sql" := by
  have h := c7_resume_parser_fields
    [("resume_text", Json.str "3 years Python, 12+ years SQL")]
    "3 years Python, 12+ years SQL" (Or.inl rfl)
  refine ⟨rfl, ?_, ?_⟩
  · rw [h.1]
    rfl
  · rw [h.2]
    rfl

/-! ## C10: the unguarded modulo in the candidate segmenter -/

/-- C10: with `num_clusters = 0` in the payload, the segmenter baseline
raises `ZeroDivisionError` exactly when the profile list is nonempty
(the comprehension evaluates `i % 0` at the first index), an empty list
returning normally with empty `cluster_assignments`; and through the
dispatcher — default configuration, unreachable external endpoint,
fallback enabled — the error escapes `call_service` unhandled. -/
theorem c10_segmenter_zero_clusters (payload : Request) (xs : List Json)
    (h1 : lookupField payload "num_clusters" = some (.int 0))
    (h2 : lookupField payload "candidate_profiles" = some (.list xs)) :
    (candidate_segmenter payload = .error .zeroDivisionError ↔ xs ≠ []) ∧
    (xs = [] → ∃ fields, candidate_segmenter payload = .ok (.obj fields) ∧
      lookupField fields "cluster_assignments" = some (.list [])) ∧
    (∀ (msg : String) (lat lm : ℚ) (m : Metrics), xs ≠ [] →
      (call_service ⟨⟨false, 0, none⟩, .error msg, lat, "candidate_segmenter", payload⟩
        ⟨⟨defaultServices, {}, lm⟩, m⟩).1
        = .error (.handlerError .zeroDivisionError)) := by
  have hlist : getListField payload "candidate_profiles" [] = .ok xs := by
    simp [getListField, h2]
  have hint : getIntField payload "num_clusters" 3 = .ok 0 := by
    simp [getIntField, h1]
  have hb : ∀ y ys, xs = y :: ys →
      candidate_segmenter payload = .error .zeroDivisionError := by
    intro y ys hx
    unfold candidate_segmenter
    rw [hlist, hint, hx]
    rfl
  have hn : xs = [] → candidate_segmenter payload =
      .ok (.obj
        [ ("cluster_assignments", .list []),
          ("cluster_descriptions", .list []),
          ("cluster_centroids", .list []),
          ("baseline", .bool true), ("method", .str "category_grouping") ]) := by
    intro hx
    unfold candidate_segmenter
    rw [hlist, hint, hx]
    rfl
  refine ⟨?_, ?_, ?_⟩
  · constructor
    · intro he hx
      rw [hn hx] at he
      cases he
    · intro hne
      cases xs with
      | nil => exact absurd rfl hne
      | cons y ys => exact hb y ys rfl
  · intro hnil
    exact ⟨_, hn hnil, rfl⟩
  · intro msg lat lm m hne
    have h3 : candidate_segmenter payload = .error .zeroDivisionError := by
      cases xs with
      | nil => exact absurd rfl hne
      | cons y ys => exact hb y ys rfl
    show (call_fallback
        ⟨⟨false, 0, none⟩, .error msg, lat, "candidate_segmenter", payload⟩
        ⟨⟨defaultServices, {}, lm⟩,
          record_failure msg "candidate_segmenter"
            (record_request "candidate_segmenter" m)⟩).1
      = .error (.handlerError .zeroDivisionError)
    unfold call_fallback
    rw [show get_fallback "candidate_segmenter" = some candidate_segmenter from rfl]
    simp [h3]

/-- C10 (witness): the theorem at a concrete payload with one profile,
in both readings: the handler raises, and the raise escapes the
dispatcher. -/
theorem c10_segmenter_zero_clusters_witness :
    lookupField [("num_clusters", Json.int 0),
      ("candidate_profiles", Json.list [.obj []])] "num_clusters"
      = some (.int 0) ∧
    candidate_segmenter [("num_clusters", Json.int 0),
      ("candidate_profiles", Json.list [.obj []])] = .error .zeroDivisionError ∧
    (call_service ⟨⟨false, 0, none⟩, .error "down", 0, "candidate_segmenter",
        [("num_clusters", Json.int 0), ("candidate_profiles", Json.list [.obj []])]⟩
      ⟨⟨defaultServices, {}, 0⟩, fun _ => {}⟩).1
      = .error (.handlerError .zeroDivisionError) := by
  have h := c10_segmenter_zero_clusters
    [("num_clusters", Json.int 0), ("candidate_profiles", Json.list [.obj []])]
    [.obj []] rfl rfl
  exact ⟨rfl, h.1.mpr (by simp), h.2.2 "down" 0 0 (fun _ => {}) (by simp)⟩

/-! ## C5: metrics accounting when every external attempt fails -/

/-- C5 (counterexample): one route call to a service with a registered
handler, a failing external attempt and fallback enabled — but a
payload on which the baseline itself raises (the segmenter's unguarded
modulo) — leaves `fallback_success` at 0 while `total_requests` and
`failures` read 1, so the counters do not all equal N. -/
theorem c5_metrics_not_n_when_handler_raises :
    ((run_calls
        [⟨⟨false, 0, none⟩, .error "boom", 0, "candidate_segmenter",
          [("num_clusters", .int 0), ("candidate_profiles", .list [.obj []])]⟩]
        (initialState ⟨defaultServices, {}, 0⟩)).metrics
      "candidate_segmenter").fallback_success = 0 ∧
    ((run_calls
        [⟨⟨false, 0, none⟩, .error "boom", 0, "candidate_segmenter",
          [("num_clusters", .int 0), ("candidate_profiles", .list [.obj []])]⟩]
        (initialState ⟨defaultServices, {}, 0⟩)).metrics
      "candidate_segmenter").total_requests = 1 ∧
    ((run_calls
        [⟨⟨false, 0, none⟩, .error "boom", 0, "candidate_segmenter",
          [("num_clusters", .int 0), ("candidate_profiles", .list [.obj []])]⟩]
        (initialState ⟨defaultServices, {}, 0⟩)).metrics
      "candidate_segmenter").failures = 1 := by
  refine ⟨rfl, rfl, rfl⟩

/-- Single-step accounting of C5: a call on a configured, enabled
service whose external attempt fails, with fallback enabled and the
registered handler returning normally, keeps the configuration and adds
one to each of the request, failure and fallback-success counters. -/
theorem c5_step (c : ConfigState) (name : String) (sc : ServiceConfig)
    (handler : Request → Except PyErr Json) (inp : CallInput) (s : RouterState)
    (hconf : s.config = c)
    (hsc : c.get_service name = some sc) (hen : sc.enabled = true)
    (hfb : c.gateway.fallback_enabled = true)
    (hh : get_fallback name = some handler)
    (hname : inp.name = name) (hfs : inp.fs.pathExists = false)
    (hext : ∃ msg, inp.ext = .error msg)
    (hok : ∃ body, handler inp.payload = .ok body) :
    (call_service inp s).2.config = c ∧
    (((call_service inp s).2.metrics name).total_requests
        = (s.metrics name).total_requests + 1 ∧
      ((call_service inp s).2.metrics name).failures
        = (s.metrics name).failures + 1 ∧
      ((call_service inp s).2.metrics name).fallback_success
        = (s.metrics name).fallback_success + 1) := by
  obtain ⟨fs, ext, lat, nm, payload⟩ := inp
  obtain ⟨msg, hext⟩ := hext
  obtain ⟨body, hok⟩ := hok
  cases hname
  cases hext
  have hcr : (s.config.check_reload fs).2 = s.config :=
    congrArg Prod.snd (check_reload_noop s.config fs hfs)
  have hsc2 : ((s.config.check_reload fs).2).get_service nm = some sc := by
    rw [hcr, hconf]; exact hsc
  rw [call_service_ext_error fs msg lat nm payload s sc hsc2 hen,
    if_pos (by rw [hcr, hconf]; exact hfb),
    call_fallback_ok fs (.error msg) lat nm payload _ handler body hh hok]
  refine ⟨by rw [hcr, hconf], ?_, ?_, ?_⟩ <;>
    simp [record_success, record_latency, record_failure, record_request, updateAt]

/-- C5 (amended): starting from a fresh metrics table, after N route
calls to a configured, enabled service in which every external attempt
fails, fallback is enabled, and the registered baseline handler returns
normally on every payload, the metrics read
`total_requests = failures = fallback_success = N`: each such call
increments both `failures` and `fallback_success`.  (When the baseline
itself raises, the fallback-success increment is skipped — see the
counterexample.) -/
theorem c5_metrics_after_n_failed_externals (c : ConfigState) (name : String)
    (sc : ServiceConfig) (handler : Request → Except PyErr Json)
    (inps : List CallInput)
    (hsc : c.get_service name = some sc) (hen : sc.enabled = true)
    (hfb : c.gateway.fallback_enabled = true)
    (hh : get_fallback name = some handler)
    (hinp : ∀ inp ∈ inps, inp.name = name ∧ inp.fs.pathExists = false ∧
      (∃ msg, inp.ext = .error msg) ∧ (∃ body, handler inp.payload = .ok body)) :
    ((run_calls inps (initialState c)).metrics name).total_requests = inps.length ∧
    ((run_calls inps (initialState c)).metrics name).failures = inps.length ∧
    ((run_calls inps (initialState c)).metrics name).fallback_success
      = inps.length := by
  suffices h : ∀ (l : List CallInput) (s : RouterState), s.config = c →
      (∀ inp ∈ l, inp.name = name ∧ inp.fs.pathExists = false ∧
        (∃ msg, inp.ext = .error msg) ∧ (∃ body, handler inp.payload = .ok body)) →
      ((run_calls l s).metrics name).total_requests
          = (s.metrics name).total_requests + l.length ∧
        ((run_calls l s).metrics name).failures
          = (s.metrics name).failures + l.length ∧
        ((run_calls l s).metrics name).fallback_success
          = (s.metrics name).fallback_success + l.length by
    have h2 := h inps (initialState c) rfl hinp
    simpa [initialState] using h2
  intro l
  induction l with
  | nil => intro s hconf hl; simp [run_calls]
  | cons inp rest ih =>
      intro s hconf hl
      have hstep := c5_step c name sc handler inp s hconf hsc hen hfb hh
        (hl inp (List.mem_cons_self inp rest)).1
        (hl inp (List.mem_cons_self inp rest)).2.1
        (hl inp (List.mem_cons_self inp rest)).2.2.1
        (hl inp (List.mem_cons_self inp rest)).2.2.2
      have hrest := ih ((call_service inp s).2) hstep.1
        (fun j hj => hl j (List.mem_cons_of_mem inp hj))
      simp only [run_calls, List.length_cons]
      omega

/-- C5 (witness): the amended theorem for two consecutive failing calls
to the candidate segmenter with a benign payload. -/
theorem c5_metrics_after_n_failed_externals_witness :
    get_fallback "candidate_segmenter" = some candidate_segmenter ∧
    ((run_calls
        [⟨⟨false, 0, none⟩, .error "boom", 0, "candidate_segmenter",
            [("candidate_profiles", .list [.obj []])]⟩,
          ⟨⟨false, 0, none⟩, .error "boom", 0, "candidate_segmenter",
            [("candidate_profiles", .list [.obj []])]⟩]
        (initialState ⟨defaultServices, {}, 0⟩)).metrics
      "candidate_segmenter").total_requests = 2 ∧
    ((run_calls
        [⟨⟨false, 0, none⟩, .error "boom", 0, "candidate_segmenter",
            [("candidate_profiles", .list [.obj []])]⟩,
          ⟨⟨false, 0, none⟩, .error "boom", 0, "candidate_segmenter",
            [("candidate_profiles", .list [.obj []])]⟩]
        (initialState ⟨defaultServices, {}, 0⟩)).metrics
      "candidate_segmenter").fallback_success = 2 := by
  have h := c5_metrics_after_n_failed_externals ⟨defaultServices, {}, 0⟩
    "candidate_segmenter" ⟨"http://localhost:5006/segment", 5, true⟩
    candidate_segmenter
    [⟨⟨false, 0, none⟩, .error "boom", 0, "candidate_segmenter",
        [("candidate_profiles", .list [.obj []])]⟩,
      ⟨⟨false, 0, none⟩, .error "boom", 0, "candidate_segmenter",
        [("candidate_profiles", .list [.obj []])]⟩]
    rfl rfl rfl rfl
    (by
      intro inp hmem
      rcases List.mem_cons.mp hmem with h1 | hmem2
      · subst h1
        exact ⟨rfl, rfl, ⟨"boom", rfl⟩, ⟨_, rfl⟩⟩
      · rcases List.mem_cons.mp hmem2 with h1 | h1
        · subst h1
          exact ⟨rfl, rfl, ⟨"boom", rfl⟩, ⟨_, rfl⟩⟩
        · cases h1)
  exact ⟨rfl, h.1, h.2.2⟩

/-! ## C8: default services always fall back cleanly -/

/-- C8: for every service name of the hardcoded default configuration,
a route call with empty payload, every external endpoint unreachable
and default gateway settings never raises: it returns an envelope whose
provenance metadata reads `source = fallback`, whatever the failure
message, the measured latency, the watermark and the prior metrics. -/
theorem c8_default_services_fall_back (name : String)
    (h : name ∈ defaultServices.map Prod.fst)
    (msg : String) (lat lm : ℚ) (m : Metrics) :
    envelopeSource
      (call_service ⟨⟨false, 0, none⟩, .error msg, lat, name, []⟩
        ⟨⟨defaultServices, {}, lm⟩, m⟩).1 = some "fallback" := by
  fin_cases h <;> rfl

/-- C8 (witness): the theorem at the first default service. -/
theorem c8_default_services_fall_back_witness :
    "job_recommender" ∈ defaultServices.map Prod.fst ∧
    envelopeSource
      (call_service ⟨⟨false, 0, none⟩, .error "down", 0, "job_recommender", []⟩
        ⟨⟨defaultServices, {}, 0⟩, fun _ => {}⟩).1 = some "fallback" :=
  ⟨by decide,
    c8_default_services_fall_back "job_recommender" (by decide) "down" 0 0
      (fun _ => {})⟩

/-! ## C9: the counter invariant -/

/-- Counter equations of `_record_request` read at an arbitrary key. -/
theorem counters_record_request (name k : String) (m : Metrics) :
    (record_request name m k).total_requests
        = (m k).total_requests + (if k = name then 1 else 0) ∧
    (record_request name m k).external_success = (m k).external_success ∧
    (record_request name m k).fallback_success = (m k).fallback_success ∧
    (record_request name m k).failures = (m k).failures := by
  simp only [record_request, updateAt]
  by_cases hk : k = name <;> simp [hk]

/-- Counter equations of `_record_failure` after `_record_request`. -/
theorem counters_record_failure (msg name k : String) (m : Metrics) :
    (record_failure msg name (record_request name m) k).total_requests
        = (m k).total_requests + (if k = name then 1 else 0) ∧
    (record_failure msg name (record_request name m) k).external_success
        = (m k).external_success ∧
    (record_failure msg name (record_request name m) k).fallback_success
        = (m k).fallback_success ∧
    (record_failure msg name (record_request name m) k).failures
        = (m k).failures + (if k = name then 1 else 0) := by
  simp only [record_failure, record_request, updateAt]
  by_cases hk : k = name <;> simp [hk]

/-- Counter equations of the external-success path's recordings. -/
theorem counters_record_ext_success (lat : ℚ) (name k : String) (m : Metrics) :
    (record_success true name (record_latency lat name (record_request name m))
        k).total_requests
        = (m k).total_requests + (if k = name then 1 else 0) ∧
    (record_success true name (record_latency lat name (record_request name m))
        k).external_success
        = (m k).external_success + (if k = name then 1 else 0) ∧
    (record_success true name (record_latency lat name (record_request name m))
        k).fallback_success = (m k).fallback_success ∧
    (record_success true name (record_latency lat name (record_request name m))
        k).failures = (m k).failures := by
  simp only [record_success, record_latency, record_request, updateAt]
  by_cases hk : k = name <;> simp [hk]

/-- Counter equations of the fallback-success recordings inside
`_call_fallback`, relative to its incoming metrics. -/
theorem counters_record_fb_success (lat : ℚ) (name k : String) (m : Metrics) :
    (record_success false name (record_latency lat name m) k).total_requests
        = (m k).total_requests ∧
    (record_success false name (record_latency lat name m) k).external_success
        = (m k).external_success ∧
    (record_success false name (record_latency lat name m) k).fallback_success
        = (m k).fallback_success + (if k = name then 1 else 0) ∧
    (record_success false name (record_latency lat name m) k).failures
        = (m k).failures := by
  simp only [record_success, record_latency, updateAt]
  by_cases hk : k = name <;> simp [hk]

/-- Invariant preservation through the baseline path: it needs one unit
of slack at the called service, which the preceding `_record_request`
always provides. -/
theorem inv_call_fallback_of (inp : CallInput) (s : RouterState) (k : String)
    (h1 : (s.metrics k).external_success + (s.metrics k).fallback_success +
      (if k = inp.name then 1 else 0) ≤ (s.metrics k).total_requests)
    (h2 : (s.metrics k).failures ≤ (s.metrics k).total_requests) :
    ((call_fallback inp s).2.metrics k).external_success +
        ((call_fallback inp s).2.metrics k).fallback_success ≤
      ((call_fallback inp s).2.metrics k).total_requests ∧
    ((call_fallback inp s).2.metrics k).failures ≤
      ((call_fallback inp s).2.metrics k).total_requests := by
  rcases call_fallback_metrics_cases inp s with hm | hm <;> rw [hm]
  · refine ⟨?_, h2⟩
    by_cases hk : k = inp.name
    · rw [if_pos hk] at h1
      omega
    · rw [if_neg hk] at h1
      omega
  · have hu := counters_record_fb_success inp.lat inp.name k s.metrics
    by_cases hk : k = inp.name
    · rw [if_pos hk] at h1
      rw [if_pos hk] at hu
      omega
    · rw [if_neg hk] at h1
      rw [if_neg hk] at hu
      omega

/-- Invariant preservation through one dispatch: every branch adds one
request, at most one success (of a single kind) and at most one
failure. -/
theorem inv_call_service (inp : CallInput) (s : RouterState) (k : String)
    (h1 : (s.metrics k).external_success + (s.metrics k).fallback_success ≤
      (s.metrics k).total_requests)
    (h2 : (s.metrics k).failures ≤ (s.metrics k).total_requests) :
    ((call_service inp s).2.metrics k).external_success +
        ((call_service inp s).2.metrics k).fallback_success ≤
      ((call_service inp s).2.metrics k).total_requests ∧
    ((call_service inp s).2.metrics k).failures ≤
      ((call_service inp s).2.metrics k).total_requests := by
  obtain ⟨fs, ext, lat, name, payload⟩ := inp
  have hreq := counters_record_request name k s.metrics
  cases hsc : ((s.config.check_reload fs).2).get_service name with
  | none =>
      rw [call_service_no_entry fs ext lat name payload s hsc]
      apply inv_call_fallback_of <;> dsimp only <;> by_cases hk : k = name
      · subst hk
        simp only [if_pos rfl] at hreq ⊢
        omega
      · simp only [if_neg hk] at hreq ⊢
        omega
      · subst hk
        simp only [if_pos rfl] at hreq
        omega
      · simp only [if_neg hk] at hreq
        omega
  | some c =>
      cases he : c.enabled with
      | false =>
          rw [call_service_disabled fs ext lat name payload s c hsc he]
          apply inv_call_fallback_of <;> dsimp only <;> by_cases hk : k = name
          · subst hk
            simp only [if_pos rfl] at hreq ⊢
            omega
          · simp only [if_neg hk] at hreq ⊢
            omega
          · subst hk
            simp only [if_pos rfl] at hreq
            omega
          · simp only [if_neg hk] at hreq
            omega
      | true =>
          cases ext with
          | ok fields =>
              rw [call_service_ext_ok fs fields lat name payload s c hsc he]
              dsimp only
              have hu := counters_record_ext_success lat name k s.metrics
              by_cases hk : k = name
              · subst hk
                simp only [if_pos rfl] at hu
                omega
              · simp only [if_neg hk] at hu
                omega
          | error msg =>
              rw [call_service_ext_error fs msg lat name payload s c hsc he]
              have hu := counters_record_failure msg name k s.metrics
              by_cases hfb :
                  ((s.config.check_reload fs).2).gateway.fallback_enabled = true
              · rw [if_pos hfb]
                apply inv_call_fallback_of <;> dsimp only <;>
                  by_cases hk : k = name
                · subst hk
                  simp only [if_pos rfl] at hu ⊢
                  omega
                · simp only [if_neg hk] at hu ⊢
                  omega
                · subst hk
                  simp only [if_pos rfl] at hu
                  omega
                · simp only [if_neg hk] at hu
                  omega
              · rw [if_neg hfb]
                dsimp only
                by_cases hk : k = name
                · subst hk
                  simp only [if_pos rfl] at hu
                  omega
                · simp only [if_neg hk] at hu
                  omega

/-- C9: after every finite sequence of dispatches from a fresh metrics
table, every service's counters satisfy
`external_success + fallback_success ≤ total_requests` and
`failures ≤ total_requests`: each call increments `total_requests`
exactly once, at most one of the success counters at most once, and
`failures` at most once. -/
theorem c9_metrics_invariant (c : ConfigState) (inps : List CallInput)
    (name : String) :
    (((run_calls inps (initialState c)).metrics name).external_success +
        ((run_calls inps (initialState c)).metrics name).fallback_success ≤
      ((run_calls inps (initialState c)).metrics name).total_requests) ∧
    ((run_calls inps (initialState c)).metrics name).failures ≤
      ((run_calls inps (initialState c)).metrics name).total_requests := by
  suffices h : ∀ (l : List CallInput) (s : RouterState),
      (∀ k, (s.metrics k).external_success + (s.metrics k).fallback_success ≤
          (s.metrics k).total_requests ∧
        (s.metrics k).failures ≤ (s.metrics k).total_requests) →
      ∀ k, ((run_calls l s).metrics k).external_success +
          ((run_calls l s).metrics k).fallback_success ≤
        ((run_calls l s).metrics k).total_requests ∧
        ((run_calls l s).metrics k).failures ≤
          ((run_calls l s).metrics k).total_requests by
    exact h inps (initialState c) (fun k => by simp [initialState]) name
  intro l
  induction l with
  | nil => intro s hs k; exact hs k
  | cons inp rest ih =>
      intro s hs k
      exact ih ((call_service inp s).2)
        (fun j => inv_call_service inp s j (hs j).1 (hs j).2) k

end Gateway
